import Mathlib

/-!
Verification of the core request pipeline of gochimp3 (src/api.go): endpoint
derivation from the credential, the retry policy of Request, the backoff
duration, query-parameter serialisation, response decoding and the error
paths of rawRequest and parseAPIError.

Machine integers of the Go code are modelled as Nat/Int; byte strings are
modelled as rune lists; the JSON wire format is modelled by an inductive
Json value, and a received body is either empty (zero bytes), a valid JSON
text, or malformed bytes.
-/

namespace Gochimp3

/-! ## Endpoint resolver (api.go 28-55) -/

/-- Word character of the Go regexp class: ASCII letter, digit or underscore. -/
def isWordChar (c : Char) : Bool := c.isAlphanum || c == '_'

/-- Every character of the list is a word character. -/
def allWord (l : List Char) : Bool := l.all isWordChar

/-- Leftmost match of DatacenterRegex (api.go line 29), the Go regexp
pattern of a non-hyphen character followed by one or more word characters
anchored at the end of the text, specialised to a rune list: a match at
position p needs a non-hyphen character at p and a nonempty all-word tail
running to the end; the leftmost feasible position wins, and the matched
text is the whole tail from p. -/
def dcFind : List Char → Option (List Char)
  | [] => none
  | c :: rest =>
    if (c != '-') && (!rest.isEmpty) && allWord rest then some (c :: rest)
    else dcFind rest

/-- regexp FindString on DatacenterRegex: the matched text, or the empty
string when there is no match. -/
def FindString (l : List Char) : List Char := (dcFind l).getD []

/-- Embeds New (api.go 44-55): the datacenter token extracted from the
credential at construction time. -/
def NewDatacenter (apiKey : String) : String := String.mk (FindString apiKey.data)

/-- Embeds New (api.go 44-55): the endpoint cached in the API value. -/
def NewEndpoint (apiKey : String) : String :=
  "https://" ++ NewDatacenter apiKey ++ ".api.mailchimp.com/3.0"

theorem isWordChar_hyphen_false : isWordChar '-' = false := by decide

theorem allWord_append_hyphen (l1 l2 : List Char) :
    allWord (l1 ++ '-' :: l2) = false := by
  induction l1 with
  | nil => simp [allWord, List.all_cons, isWordChar_hyphen_false]
  | cons x xs ih =>
    rw [List.cons_append, allWord, List.all_cons]
    have ih2 : (xs ++ '-' :: l2).all isWordChar = false := ih
    rw [ih2, Bool.and_false]

theorem dcFind_skip (l1 l2 : List Char) :
    dcFind (l1 ++ '-' :: l2) = dcFind l2 := by
  induction l1 with
  | nil => simp [dcFind]
  | cons x xs ih =>
    rw [List.cons_append, dcFind, allWord_append_hyphen]
    simp [ih]

theorem word_ne_hyphen {c : Char} (h : isWordChar c = true) : (c != '-') = true := by
  rcases hc : c == '-' with _ | _
  · simpa [bne] using hc
  · exfalso
    have : c = '-' := by simpa using hc
    rw [this] at h
    simp [isWordChar_hyphen_false] at h

theorem dcFind_allWord (l : List Char) (hw : allWord l = true) (hl : 2 ≤ l.length) :
    dcFind l = some l := by
  match l with
  | [] => simp at hl
  | [a] => simp at hl
  | a :: b :: t =>
    have ha : isWordChar a = true := by
      simp [allWord, List.all_cons] at hw; exact hw.1
    have htail : allWord (b :: t) = true := by
      simp [allWord, List.all_cons] at hw ⊢; exact ⟨hw.2.1, hw.2.2⟩
    rw [dcFind]
    simp [word_ne_hyphen ha, htail]

/-- C1 (amended): for every credential of the form prefix-suffix whose
suffix is a run of word characters of length at least two, the extracted
datacenter token equals the suffix; for every hyphen-free credential made
entirely of word characters, of length at least two, the token is the whole
credential. -/
theorem datacenter_extraction :
    (∀ (pre suf : List Char), allWord suf = true → 2 ≤ suf.length →
      FindString (pre ++ '-' :: suf) = suf) ∧
    (∀ s : List Char, allWord s = true → 2 ≤ s.length → FindString s = s) := by
  constructor
  · intro pre suf hw hl
    rw [FindString, dcFind_skip, dcFind_allWord suf hw hl]
    rfl
  · intro s hw hl
    rw [FindString, dcFind_allWord s hw hl]
    rfl

/-- Witness for datacenter_extraction at the credential abc-us6 and the
hyphen-free credential us6. -/
theorem datacenter_extraction_witness :
    FindString (('a' : Char) :: 'b' :: 'c' :: '-' :: 'u' :: 's' :: '6' :: []) =
      ('u' : Char) :: 's' :: '6' :: [] ∧
    FindString (('u' : Char) :: 's' :: '6' :: []) = ('u' : Char) :: 's' :: '6' :: [] := by
  constructor
  · exact datacenter_extraction.1 (('a' : Char) :: 'b' :: 'c' :: [])
      (('u' : Char) :: 's' :: '6' :: []) (by decide) (by decide)
  · exact datacenter_extraction.2 (('u' : Char) :: 's' :: '6' :: []) (by decide) (by decide)

/-- C1 counterexample: the claim as stated fails at the credential abc-u,
whose suffix u is a nonempty run of word characters, yet the extracted
token is the empty string, because the regexp pattern needs a non-hyphen
character in front of at least one word character. -/
theorem datacenter_extraction_claim_false :
    ¬ (∀ (pre suf : List Char), suf ≠ [] → allWord suf = true →
        FindString (pre ++ '-' :: suf) = suf) := by
  intro h
  have := h (('a' : Char) :: 'b' :: 'c' :: []) (('u' : Char) :: [])
    (by decide) (by decide)
  exact absurd this (by decide)

/-! ## Backoff duration (api.go 57-70) -/

/-- One minute in nanoseconds, the unit of Go time.Duration. -/
def Minute : Nat := 60000000000

/-- Model of rand.Intn n: a uniform draw in the interval from 0 up to but
not including n, here parametrised by the underlying random value r. -/
def Intn (n r : Nat) : Nat := r % n

/-- Embeds Random (api.go 68-70): rand.Intn of max minus min, plus min. -/
def Random (min max r : Nat) : Nat := Intn (max - min) r + min

/-- Embeds the backoff duration passed to the retry call at api.go line 65:
Random of 1 and 10, multiplied by one minute. -/
def backoffNanos (r : Nat) : Nat := Random 1 10 r * Minute

/-- C7: the backoff duration between attempts is a whole number of minutes
between 1 and 9 inclusive, never zero and never above 9 minutes, and every
whole number of minutes in that range is attained by some draw, so a
uniform draw of rand.Intn 9 yields a uniform duration over that range. -/
theorem backoff_bounds :
    ∀ r k : Nat, 1 ≤ k → k ≤ 9 →
      (Minute ≤ backoffNanos r ∧ backoffNanos r ≤ 9 * Minute ∧ backoffNanos r ≠ 0 ∧
        ∃ m, 1 ≤ m ∧ m ≤ 9 ∧ backoffNanos r = m * Minute) ∧
      (∃ s, s < 9 ∧ backoffNanos s = k * Minute) := by
  intro r k hk1 hk9
  have hr : r % 9 < 9 := Nat.mod_lt r (by omega)
  have hM : 0 < Minute := by decide
  have heq : ∀ s : Nat, backoffNanos s = (s % 9 + 1) * Minute := fun s => rfl
  constructor
  · rw [heq]
    refine ⟨?_, ?_, ?_, r % 9 + 1, by omega, by omega, rfl⟩
    · have h1 : 1 * Minute ≤ (r % 9 + 1) * Minute :=
        Nat.mul_le_mul_right _ (by omega)
      simpa using h1
    · exact Nat.mul_le_mul_right _ (by omega)
    · have hpos := Nat.mul_pos (show 0 < r % 9 + 1 by omega) hM
      omega
  · refine ⟨k - 1, by omega, ?_⟩
    rw [heq]
    have h9 : (k - 1) % 9 = k - 1 := Nat.mod_eq_of_lt (by omega)
    rw [h9]
    congr 1
    omega

/-- Witness for backoff_bounds at the draw 0 and the target 9 minutes. -/
theorem backoff_bounds_witness :
    Minute ≤ backoffNanos 0 ∧ (∃ s, s < 9 ∧ backoffNanos s = 9 * Minute) := by
  have h := backoff_bounds 0 9 (by decide) (by decide)
  exact ⟨h.1.1, h.2⟩

/-! ## JSON values and received bodies -/

/-- A JSON value of the wire format. -/
inductive Json where
  | null
  | bool (b : Bool)
  | num (n : Int)
  | str (s : String)
  | arr (elems : List Json)
  | obj (fields : List (String × Json))

/-- A received response body, abstracting the byte level: every byte string
is exactly one of zero bytes, a valid JSON text with its parsed value, or
malformed bytes that json.Unmarshal rejects with a syntax error (an empty
input is rejected with unexpected end of JSON input). -/
inductive RawBody where
  | empty
  | json (j : Json)
  | invalid

/-- Failure kinds of json.Unmarshal: a syntax error (malformed or empty
input) or an UnmarshalTypeError (value of the wrong JSON type for the
destination). -/
inductive DecodeError where
  | syntaxErr
  | typeErr
deriving DecidableEq

/-! ## APIError and the error decoder (api.go 168-177) -/

/-- Modelled from the spec: the APIError structure lives in a repository
file outside src/; per the spec its JSON error payload carries status
(number), type, title and detail (strings). The field errtype models the
JSON key named type. -/
structure APIError where
  status : Int
  errtype : String
  title : String
  detail : String
deriving DecidableEq

/-- The zero value a freshly allocated APIError holds before decoding. -/
def zeroAPIError : APIError := ⟨0, "", "", ""⟩

/-- Go json.Unmarshal of a JSON object into the APIError struct: fields are
consumed in order, a later duplicate key overwrites, unknown keys are
ignored, a null field value is a no-op, and a field value of the wrong JSON
type is a type error. -/
def decodeFields : List (String × Json) → APIError → Except DecodeError APIError
  | [], acc => Except.ok acc
  | (k, v) :: rest, acc =>
    if k = "status" then
      match v with
      | Json.num n => decodeFields rest { acc with status := n }
      | Json.null => decodeFields rest acc
      | _ => Except.error DecodeError.typeErr
    else if k = "type" then
      match v with
      | Json.str s => decodeFields rest { acc with errtype := s }
      | Json.null => decodeFields rest acc
      | _ => Except.error DecodeError.typeErr
    else if k = "title" then
      match v with
      | Json.str s => decodeFields rest { acc with title := s }
      | Json.null => decodeFields rest acc
      | _ => Except.error DecodeError.typeErr
    else if k = "detail" then
      match v with
      | Json.str s => decodeFields rest { acc with detail := s }
      | Json.null => decodeFields rest acc
      | _ => Except.error DecodeError.typeErr
    else decodeFields rest acc

/-- json.Unmarshal of a received body into new APIError: empty or malformed
input is a syntax error, a JSON null leaves the zero value, a JSON object
decodes field by field, and any other JSON value is a type error. -/
def unmarshalAPIError : RawBody → Except DecodeError APIError
  | RawBody.empty => Except.error DecodeError.syntaxErr
  | RawBody.invalid => Except.error DecodeError.syntaxErr
  | RawBody.json Json.null => Except.ok zeroAPIError
  | RawBody.json (Json.obj fields) => decodeFields fields zeroAPIError
  | RawBody.json _ => Except.error DecodeError.typeErr

/-- Errors a single rawRequest call can return; network and read failures
carry an abstract identity so distinct attempts yield distinct errors. -/
inductive ReqError where
  | netErr (id : Nat)
  | readErr (id : Nat)
  | decodeErr (e : DecodeError)
  | apiErr (e : APIError)
deriving DecidableEq

/-- Embeds parseAPIError (api.go 168-177): unmarshal the raw body into a
new APIError; a decode failure is returned as the error, otherwise the
decoded APIError itself is the error. (The unconditional MAILCHIMP ERROR
log line is mirrored in the rawRequest log.) -/
def parseAPIError (data : RawBody) : ReqError :=
  match unmarshalAPIError data with
  | Except.error e => ReqError.decodeErr e
  | Except.ok a => ReqError.apiErr a

/-! ## Interface values and the nil-capability guards (api.go 106, 143) -/

/-- A Go interface value holding a QueryParams implementation: the nil
interface, a typed nil of a nilable kind, a non-nil value of a nilable
kind carrying its Params mapping, or a value of a non-nilable kind (for
example a struct value) carrying its Params mapping. -/
inductive ParamsVal where
  | nilIface
  | typedNil
  | ptrTo (m : List (String × String))
  | structVal (m : List (String × String))
deriving DecidableEq

/-- A Go interface value holding the response destination: the nil
interface, a typed nil, a pointer to a generic JSON container holding its
current contents, or a value of a non-nilable kind. -/
inductive RespVal where
  | nilIface
  | typedNil
  | ptrTo (contents : Json)
  | structVal (contents : Json)

/-- Result of a nil-capability check of the source, x == nil short-circuit
followed by reflect.ValueOf(x).IsNil(): nil, not nil, or a reflect panic
because IsNil is called on a value of a non-nilable kind. -/
inductive GuardRes where
  | isNil
  | notNil
  | panicked
deriving DecidableEq

/-- Embeds the guard at api.go line 106 on the params interface value. -/
def paramsGuard : ParamsVal → GuardRes
  | ParamsVal.nilIface => GuardRes.isNil
  | ParamsVal.typedNil => GuardRes.isNil
  | ParamsVal.ptrTo _ => GuardRes.notNil
  | ParamsVal.structVal _ => GuardRes.panicked

/-- Embeds the guard at api.go line 143 on the response interface value. -/
def respGuard : RespVal → GuardRes
  | RespVal.nilIface => GuardRes.isNil
  | RespVal.typedNil => GuardRes.isNil
  | RespVal.ptrTo _ => GuardRes.notNil
  | RespVal.structVal _ => GuardRes.panicked

/-! ## Query parameter serialisation (api.go 106-118) -/

/-- url.Values.Set: replace the value bound to the key, or append the pair
when the key is absent. -/
def setParam (q : List (String × String)) (k v : String) : List (String × String) :=
  if q.any (fun kv => kv.1 = k) then
    q.map (fun kv => if kv.1 = k then (k, v) else kv)
  else q ++ [(k, v)]

/-- Embeds the loop at api.go 108-112 over the Params mapping, starting
from the empty query of the freshly built request URL: a pair is Set only
when its value is not the empty string. -/
def buildQuery (m : List (String × String)) : List (String × String) :=
  m.foldl (fun q kv => if kv.2 ≠ "" then setParam q kv.1 kv.2 else q) []

/-! ## Transport outcomes -/

/-- Outcome of ioutil.ReadAll on the response body. -/
inductive ReadOutcome where
  | readFail (id : Nat)
  | bytes (data : RawBody)

/-- An HTTP response: status code and the outcome of reading its body. -/
structure HttpResp where
  status : Nat
  read : ReadOutcome

/-- Outcome of client.Do: a network-level failure or a response. -/
inductive TransportOutcome where
  | netFail (id : Nat)
  | resp (r : HttpResp)

/-- Outcome of one rawRequest call as seen by Go control flow: a panic that
escapes, an error return, or a nil error return. -/
inductive Outcome where
  | panicked
  | failed (e : ReqError)
  | ok
deriving DecidableEq

/-- Everything one rawRequest call produces: its outcome, the final
contents of the response destination, the query attached to the outgoing
URL, and the log lines emitted. -/
structure RawResult where
  outcome : Outcome
  dest : RespVal
  query : List (String × String)
  log : List String

/-! ## rawRequest (api.go 73-157) -/

/-- Embeds rawRequest (api.go 73-157) from request construction onward.
The request body is modelled as an optional JSON value, whose marshalling
cannot fail in-model; method, path and URL formation are elided since they
cannot fail in-model; http.NewRequest starts from an empty query. Each
log.Printf guarded by api.Debug is mirrored as a log line; the MAILCHIMP
ERROR line of parseAPIError is unconditional. The guards at lines 106 and
143 follow the short-circuit order of the source, so a params or response
value of a non-nilable kind panics, and on the 2xx branch the nil checks
run before the empty-body check. -/
def rawRequest (debug : Bool) (params : ParamsVal) (body : Option Json)
    (response : RespVal) (transport : TransportOutcome) : RawResult :=
  let logA := (if debug then ["Requesting"] else [])
    ++ (if body.isSome && debug then ["Adding body"] else [])
  match params with
  | ParamsVal.structVal _ =>
    { outcome := Outcome.panicked, dest := response, query := [], log := logA }
  | p =>
    let query : List (String × String) :=
      match p with
      | ParamsVal.ptrTo m => buildQuery m
      | _ => []
    let logB := logA ++ (match p with
      | ParamsVal.ptrTo _ => if debug then ["Adding query params"] else []
      | _ => [])
    let logC := logB ++ (if debug then ["DumpRequestOut"] else [])
    match transport with
    | TransportOutcome.netFail id =>
      { outcome := Outcome.failed (ReqError.netErr id), dest := response,
        query := query, log := logC }
    | TransportOutcome.resp r =>
      let logD := logC ++ (if debug then ["DumpResponse"] else [])
      match r.read with
      | ReadOutcome.readFail id =>
        { outcome := Outcome.failed (ReqError.readErr id), dest := response,
          query := query, log := logD }
      | ReadOutcome.bytes data =>
        if 200 ≤ r.status ∧ r.status < 300 then
          match response with
          | RespVal.nilIface =>
            { outcome := Outcome.ok, dest := response, query := query, log := logD }
          | RespVal.typedNil =>
            { outcome := Outcome.ok, dest := response, query := query, log := logD }
          | RespVal.structVal c =>
            { outcome := Outcome.panicked, dest := RespVal.structVal c,
              query := query, log := logD }
          | RespVal.ptrTo cur =>
            match data with
            | RawBody.empty =>
              { outcome := Outcome.ok, dest := RespVal.ptrTo cur,
                query := query, log := logD }
            | RawBody.json j =>
              { outcome := Outcome.ok, dest := RespVal.ptrTo j,
                query := query, log := logD }
            | RawBody.invalid =>
              { outcome := Outcome.failed (ReqError.decodeErr DecodeError.syntaxErr),
                dest := RespVal.ptrTo cur, query := query, log := logD }
        else
          { outcome := Outcome.failed (parseAPIError data), dest := response,
            query := query, log := logD ++ ["MAILCHIMP ERROR"] }

/-! ## Request and the retry loop (api.go 57-66) -/

/-- Modelled from the spec: ptk.RetryCtx is an external dependency whose
source is not under src/; per the spec the retry orchestrator performs the
attempts in order, stops at the first nil error, and after the last attempt
returns that attempt's error unchanged. A panic escapes at once. The
response destination is the same pointer across attempts, so its contents
thread from one attempt to the next. -/
def retryList (step : RespVal → TransportOutcome → RawResult) :
    List TransportOutcome → RespVal → Outcome × RespVal
  | [], d => (Outcome.ok, d)
  | t :: ts, d =>
    let r := step d t
    if ts.isEmpty then (r.outcome, r.dest)
    else
      match r.outcome with
      | Outcome.failed _ => retryList step ts r.dest
      | o => (o, r.dest)

/-- Embeds Request (api.go 57-66): five attempts of the full rawRequest
call against the per-attempt transport outcomes. -/
def Request (debug : Bool) (params : ParamsVal) (body : Option Json)
    (response : RespVal) (transports : Nat → TransportOutcome) : Outcome × RespVal :=
  retryList (fun d t => rawRequest debug params body d t)
    [transports 0, transports 1, transports 2, transports 3, transports 4] response

/-! ## The execution context of the retry loop (api.go 59) -/

/-- A Go context as distinguishable by the retry loop: the background
context or a context that carries a cancellation capability. -/
inductive GoContext where
  | background
  | cancellable
deriving DecidableEq

/-- Whether a cancellation signal can ever be delivered through the
context. -/
def GoContext.isCancellable : GoContext → Bool
  | GoContext.background => false
  | GoContext.cancellable => true

/-- Embeds api.go line 59: the context Request hands to ptk.RetryCtx is
context.Background(), created inside Request; the signature of Request
(method, path, params, body, response) accepts no caller context. -/
def requestContext : GoContext := GoContext.background

/-! ## Helper lemmas on rawRequest and retryList -/

theorem raw_netFail_eq (debug : Bool) (params : ParamsVal) (body : Option Json)
    (d : RespVal) (e : Nat) (hp : paramsGuard params ≠ GuardRes.panicked) :
    (rawRequest debug params body d (TransportOutcome.netFail e)).outcome
      = Outcome.failed (ReqError.netErr e) ∧
    (rawRequest debug params body d (TransportOutcome.netFail e)).dest = d := by
  cases params with
  | structVal m => exact absurd rfl hp
  | nilIface => exact ⟨rfl, rfl⟩
  | typedNil => exact ⟨rfl, rfl⟩
  | ptrTo m => exact ⟨rfl, rfl⟩

theorem raw_ok200_eq (debug : Bool) (params : ParamsVal) (body : Option Json)
    (c j : Json) (hp : paramsGuard params ≠ GuardRes.panicked) :
    (rawRequest debug params body (RespVal.ptrTo c)
        (TransportOutcome.resp ⟨200, ReadOutcome.bytes (RawBody.json j)⟩)).outcome
      = Outcome.ok ∧
    (rawRequest debug params body (RespVal.ptrTo c)
        (TransportOutcome.resp ⟨200, ReadOutcome.bytes (RawBody.json j)⟩)).dest
      = RespVal.ptrTo j := by
  cases params with
  | structVal m => exact absurd rfl hp
  | nilIface => exact ⟨rfl, rfl⟩
  | typedNil => exact ⟨rfl, rfl⟩
  | ptrTo m => exact ⟨rfl, rfl⟩

theorem rawRequest_query_ptr (debug : Bool) (body : Option Json) (resp : RespVal)
    (t : TransportOutcome) (m : List (String × String)) :
    (rawRequest debug (ParamsVal.ptrTo m) body resp t).query = buildQuery m := by
  cases t with
  | netFail e => rfl
  | resp r =>
    obtain ⟨st, rd⟩ := r
    cases rd with
    | readFail id => rfl
    | bytes data =>
      by_cases hst : 200 ≤ st ∧ st < 300
      · simp only [rawRequest]
        rw [if_pos hst]
        cases resp with
        | nilIface => rfl
        | typedNil => rfl
        | structVal c => rfl
        | ptrTo cur => cases data <;> rfl
      · simp only [rawRequest]
        rw [if_neg hst]

theorem rawRequest_debug_irrelevant (params : ParamsVal) (body : Option Json)
    (resp : RespVal) (t : TransportOutcome) :
    (rawRequest true params body resp t).outcome
      = (rawRequest false params body resp t).outcome ∧
    (rawRequest true params body resp t).dest
      = (rawRequest false params body resp t).dest ∧
    (rawRequest true params body resp t).query
      = (rawRequest false params body resp t).query := by
  cases params <;>
    (try exact ⟨rfl, rfl, rfl⟩) <;>
    cases t with
    | netFail e => exact ⟨rfl, rfl, rfl⟩
    | resp r =>
      obtain ⟨st, rd⟩ := r
      cases rd with
      | readFail id => exact ⟨rfl, rfl, rfl⟩
      | bytes data =>
        by_cases hst : 200 ≤ st ∧ st < 300
        · simp only [rawRequest]
          rw [if_pos hst, if_pos hst]
          cases resp with
          | nilIface => exact ⟨rfl, rfl, rfl⟩
          | typedNil => exact ⟨rfl, rfl, rfl⟩
          | structVal c => exact ⟨rfl, rfl, rfl⟩
          | ptrTo cur => cases data <;> exact ⟨rfl, rfl, rfl⟩
        · simp only [rawRequest]
          rw [if_neg hst, if_neg hst]
          exact ⟨rfl, rfl, rfl⟩

theorem retryList_congr (s1 s2 : RespVal → TransportOutcome → RawResult)
    (h : ∀ d t, (s1 d t).outcome = (s2 d t).outcome ∧ (s1 d t).dest = (s2 d t).dest) :
    ∀ (l : List TransportOutcome) (d : RespVal), retryList s1 l d = retryList s2 l d := by
  intro l
  induction l with
  | nil => intro d; rfl
  | cons t ts ih =>
    intro d
    simp only [retryList]
    rw [(h d t).1, (h d t).2]
    cases hemp : ts.isEmpty with
    | true => simp
    | false =>
      simp only [Bool.false_eq_true, if_false]
      cases ho : (s2 d t).outcome <;> simp [ih]

/-! ## Claim theorems on the request pipeline -/

/-- C2: Request performs at most five attempts of the full transport call;
when the transport fails the first N minus 1 attempts and succeeds on
attempt N, at most the fifth, Request returns success with the decoded
response in the destination; when all five attempts fail, Request returns
exactly the fifth attempt's error, unwrapped. -/
theorem request_retry_policy :
    ∀ (debug : Bool) (params : ParamsVal) (body : Option Json) (d0 j : Json)
      (transports : Nat → TransportOutcome) (eids : Nat → Nat) (N : Nat),
      paramsGuard params ≠ GuardRes.panicked → 1 ≤ N → N ≤ 5 →
      ((∀ i, i + 1 < N → transports i = TransportOutcome.netFail (eids i)) →
        transports (N - 1)
            = TransportOutcome.resp ⟨200, ReadOutcome.bytes (RawBody.json j)⟩ →
        Request debug params body (RespVal.ptrTo d0) transports
          = (Outcome.ok, RespVal.ptrTo j)) ∧
      ((∀ i, i < 5 → transports i = TransportOutcome.netFail (eids i)) →
        Request debug params body (RespVal.ptrTo d0) transports
          = (Outcome.failed (ReqError.netErr (eids 4)), RespVal.ptrTo d0)) := by
  intro debug params body d0 j transports eids N hp hN1 hN5
  have sOK := raw_ok200_eq debug params body d0 j hp
  have sF : ∀ e : Nat,
      (rawRequest debug params body (RespVal.ptrTo d0)
          (TransportOutcome.netFail e)).outcome = Outcome.failed (ReqError.netErr e) ∧
      (rawRequest debug params body (RespVal.ptrTo d0)
          (TransportOutcome.netFail e)).dest = RespVal.ptrTo d0 :=
    fun e => raw_netFail_eq debug params body (RespVal.ptrTo d0) e hp
  constructor
  · intro hf hs
    interval_cases N
    · norm_num at hs
      simp [Request, retryList, hs, sOK.1, sOK.2]
    · norm_num at hs
      have h0 := hf 0 (by omega)
      simp [Request, retryList, h0, hs, (sF (eids 0)).1, (sF (eids 0)).2, sOK.1, sOK.2]
    · norm_num at hs
      have h0 := hf 0 (by omega)
      have h1 := hf 1 (by omega)
      simp [Request, retryList, h0, h1, hs, (sF (eids 0)).1, (sF (eids 0)).2,
        (sF (eids 1)).1, (sF (eids 1)).2, sOK.1, sOK.2]
    · norm_num at hs
      have h0 := hf 0 (by omega)
      have h1 := hf 1 (by omega)
      have h2 := hf 2 (by omega)
      simp [Request, retryList, h0, h1, h2, hs, (sF (eids 0)).1, (sF (eids 0)).2,
        (sF (eids 1)).1, (sF (eids 1)).2, (sF (eids 2)).1, (sF (eids 2)).2, sOK.1, sOK.2]
    · norm_num at hs
      have h0 := hf 0 (by omega)
      have h1 := hf 1 (by omega)
      have h2 := hf 2 (by omega)
      have h3 := hf 3 (by omega)
      simp [Request, retryList, h0, h1, h2, h3, hs, (sF (eids 0)).1, (sF (eids 0)).2,
        (sF (eids 1)).1, (sF (eids 1)).2, (sF (eids 2)).1, (sF (eids 2)).2,
        (sF (eids 3)).1, (sF (eids 3)).2, sOK.1, sOK.2]
  · intro hf
    have h0 := hf 0 (by omega)
    have h1 := hf 1 (by omega)
    have h2 := hf 2 (by omega)
    have h3 := hf 3 (by omega)
    have h4 := hf 4 (by omega)
    simp [Request, retryList, h0, h1, h2, h3, h4, (sF (eids 0)).1, (sF (eids 0)).2,
      (sF (eids 1)).1, (sF (eids 1)).2, (sF (eids 2)).1, (sF (eids 2)).2,
      (sF (eids 3)).1, (sF (eids 3)).2, (sF (eids 4)).1, (sF (eids 4)).2]

/-- A transport that fails with a network error on the first two attempts
and answers 200 with a JSON number from the third on. -/
def transportsW : Nat → TransportOutcome := fun i =>
  if i < 2 then TransportOutcome.netFail i
  else TransportOutcome.resp ⟨200, ReadOutcome.bytes (RawBody.json (Json.num 1))⟩

/-- Witness for request_retry_policy: two failures, success on attempt 3. -/
theorem request_retry_policy_witness :
    Request false ParamsVal.nilIface none (RespVal.ptrTo Json.null) transportsW
      = (Outcome.ok, RespVal.ptrTo (Json.num 1)) := by
  refine (request_retry_policy false ParamsVal.nilIface none Json.null (Json.num 1)
      transportsW (fun i => i) 3 (by decide) (by decide) (by decide)).1 ?_ ?_
  · intro i hi
    have h2 : i < 2 := by omega
    simp [transportsW, h2]
  · rfl

/-- C3 counterexample: the context bounding the retry loop is not
cancellable, so the claim of an externally cancellable execution context
is false. -/
theorem request_context_claim_false :
    ¬ (GoContext.isCancellable requestContext = true) := by decide

/-- C3 (amended): the retry loop of Request runs under context.Background()
created inside Request itself; that context carries no cancellation
capability and Request accepts no caller-supplied context, so no external
cancellation signal can abort the wait-and-retry loop. -/
theorem request_context_background :
    requestContext = GoContext.background ∧
      GoContext.isCancellable requestContext = false :=
  ⟨rfl, rfl⟩

/-- C4: a non-2xx body that is valid APIError JSON yields an APIError whose
status, type, title and detail equal the decoded JSON fields; a body whose
unmarshalling fails yields that decode failure itself, never a synthesized
APIError; and the non-2xx branch of rawRequest returns exactly what
parseAPIError produced. -/
theorem api_error_decoding :
    ∀ (s : Int) (t ti dt : String) (b : RawBody) (e : DecodeError) (debug : Bool)
      (params : ParamsVal) (body : Option Json) (resp : RespVal) (st : Nat),
      parseAPIError (RawBody.json (Json.obj
          (("status", Json.num s) :: ("type", Json.str t) :: ("title", Json.str ti)
            :: ("detail", Json.str dt) :: [])))
        = ReqError.apiErr ⟨s, t, ti, dt⟩ ∧
      (unmarshalAPIError b = Except.error e → parseAPIError b = ReqError.decodeErr e) ∧
      (paramsGuard params ≠ GuardRes.panicked → ¬ (200 ≤ st ∧ st < 300) →
        (rawRequest debug params body resp
            (TransportOutcome.resp ⟨st, ReadOutcome.bytes b⟩)).outcome
          = Outcome.failed (parseAPIError b)) := by
  intro s t ti dt b e debug params body resp st
  refine ⟨rfl, ?_, ?_⟩
  · intro h
    simp only [parseAPIError, h]
  · intro hp hst
    cases params with
    | structVal m => exact absurd rfl hp
    | nilIface => simp only [rawRequest]; rw [if_neg hst]
    | typedNil => simp only [rawRequest]; rw [if_neg hst]
    | ptrTo m => simp only [rawRequest]; rw [if_neg hst]

/-- Witness for api_error_decoding: a 404 with a malformed body yields the
decode failure, not an APIError. -/
theorem api_error_decoding_witness :
    (unmarshalAPIError RawBody.invalid = Except.error DecodeError.syntaxErr ∧
      parseAPIError RawBody.invalid = ReqError.decodeErr DecodeError.syntaxErr) ∧
    (rawRequest false ParamsVal.nilIface none RespVal.nilIface
        (TransportOutcome.resp ⟨404, ReadOutcome.bytes RawBody.invalid⟩)).outcome
      = Outcome.failed (parseAPIError RawBody.invalid) := by
  have h := api_error_decoding 404 ("t") ("t") ("t") RawBody.invalid
    DecodeError.syntaxErr false ParamsVal.nilIface none RespVal.nilIface 404
  exact ⟨⟨rfl, h.2.1 rfl⟩, h.2.2 (by decide) (by decide)⟩

/-- C5 (amended): on a 2xx response, a nil destination (nil interface or
typed nil) yields success with no decoding regardless of body content; an
empty body with a non-nil destination of nilable kind yields success with
the destination unmodified; a non-nil destination of non-nilable kind makes
the nil-capability check panic instead. -/
theorem empty_body_nil_dest :
    ∀ (debug : Bool) (params : ParamsVal) (body : Option Json) (st : Nat)
      (data : RawBody) (c : Json),
      paramsGuard params ≠ GuardRes.panicked → 200 ≤ st → st < 300 →
      ((rawRequest debug params body RespVal.nilIface
          (TransportOutcome.resp ⟨st, ReadOutcome.bytes data⟩)).outcome = Outcome.ok ∧
        (rawRequest debug params body RespVal.nilIface
          (TransportOutcome.resp ⟨st, ReadOutcome.bytes data⟩)).dest = RespVal.nilIface) ∧
      ((rawRequest debug params body RespVal.typedNil
          (TransportOutcome.resp ⟨st, ReadOutcome.bytes data⟩)).outcome = Outcome.ok ∧
        (rawRequest debug params body RespVal.typedNil
          (TransportOutcome.resp ⟨st, ReadOutcome.bytes data⟩)).dest = RespVal.typedNil) ∧
      ((rawRequest debug params body (RespVal.ptrTo c)
          (TransportOutcome.resp ⟨st, ReadOutcome.bytes RawBody.empty⟩)).outcome
            = Outcome.ok ∧
        (rawRequest debug params body (RespVal.ptrTo c)
          (TransportOutcome.resp ⟨st, ReadOutcome.bytes RawBody.empty⟩)).dest
            = RespVal.ptrTo c) ∧
      (rawRequest debug params body (RespVal.structVal c)
          (TransportOutcome.resp ⟨st, ReadOutcome.bytes data⟩)).outcome
        = Outcome.panicked := by
  intro debug params body st data c hp h1 h2
  have hst : 200 ≤ st ∧ st < 300 := ⟨h1, h2⟩
  cases params with
  | structVal m => exact absurd rfl hp
  | nilIface =>
    refine ⟨⟨?_, ?_⟩, ⟨?_, ?_⟩, ⟨?_, ?_⟩, ?_⟩ <;>
      (simp only [rawRequest]; rw [if_pos hst])
  | typedNil =>
    refine ⟨⟨?_, ?_⟩, ⟨?_, ?_⟩, ⟨?_, ?_⟩, ?_⟩ <;>
      (simp only [rawRequest]; rw [if_pos hst])
  | ptrTo m =>
    refine ⟨⟨?_, ?_⟩, ⟨?_, ?_⟩, ⟨?_, ?_⟩, ?_⟩ <;>
      (simp only [rawRequest]; rw [if_pos hst])

/-- Witness for empty_body_nil_dest at a 204 with a malformed body. -/
theorem empty_body_nil_dest_witness :
    ((rawRequest false ParamsVal.nilIface none RespVal.nilIface
        (TransportOutcome.resp ⟨204, ReadOutcome.bytes RawBody.invalid⟩)).outcome
          = Outcome.ok ∧
      (rawRequest false ParamsVal.nilIface none RespVal.nilIface
        (TransportOutcome.resp ⟨204, ReadOutcome.bytes RawBody.invalid⟩)).dest
          = RespVal.nilIface) ∧
    ((rawRequest false ParamsVal.nilIface none RespVal.typedNil
        (TransportOutcome.resp ⟨204, ReadOutcome.bytes RawBody.invalid⟩)).outcome
          = Outcome.ok ∧
      (rawRequest false ParamsVal.nilIface none RespVal.typedNil
        (TransportOutcome.resp ⟨204, ReadOutcome.bytes RawBody.invalid⟩)).dest
          = RespVal.typedNil) ∧
    ((rawRequest false ParamsVal.nilIface none (RespVal.ptrTo (Json.str ("keep")))
        (TransportOutcome.resp ⟨204, ReadOutcome.bytes RawBody.empty⟩)).outcome
          = Outcome.ok ∧
      (rawRequest false ParamsVal.nilIface none (RespVal.ptrTo (Json.str ("keep")))
        (TransportOutcome.resp ⟨204, ReadOutcome.bytes RawBody.empty⟩)).dest
          = RespVal.ptrTo (Json.str ("keep"))) ∧
    (rawRequest false ParamsVal.nilIface none (RespVal.structVal Json.null)
        (TransportOutcome.resp ⟨204, ReadOutcome.bytes RawBody.invalid⟩)).outcome
      = Outcome.panicked :=
  empty_body_nil_dest false ParamsVal.nilIface none 204 RawBody.invalid
    (Json.str ("keep")) (by decide) (by decide) (by decide)

/-- C5 counterexample: a 2xx response with an empty body and a non-nil
destination of struct kind does not return success with the destination
unmodified; the nil-capability check panics before the empty-body check
can run. -/
theorem empty_body_nonnil_dest_claim_false :
    (rawRequest false ParamsVal.nilIface none (RespVal.structVal Json.null)
        (TransportOutcome.resp ⟨200, ReadOutcome.bytes RawBody.empty⟩)).outcome
      = Outcome.panicked ∧
    ¬ ((rawRequest false ParamsVal.nilIface none (RespVal.structVal Json.null)
        (TransportOutcome.resp ⟨200, ReadOutcome.bytes RawBody.empty⟩)).outcome
      = Outcome.ok) := by
  exact ⟨rfl, fun h => Outcome.noConfusion h⟩

theorem buildQuery_go (m : List (String × String)) :
    ∀ q : List (String × String),
      (∀ kv ∈ m, ∀ kv2 ∈ q, kv.1 ≠ kv2.1) → (m.map Prod.fst).Nodup →
      m.foldl (fun q2 kv => if kv.2 ≠ "" then setParam q2 kv.1 kv.2 else q2) q
        = q ++ m.filter (fun kv => kv.2 ≠ "") := by
  induction m with
  | nil => intro q _ _; simp
  | cons kv rest ih =>
    intro q hdisj hnd
    have hndr : (rest.map Prod.fst).Nodup := by
      simp only [List.map_cons, List.nodup_cons] at hnd
      exact hnd.2
    have hkv : kv.1 ∉ rest.map Prod.fst := by
      simp only [List.map_cons, List.nodup_cons] at hnd
      exact hnd.1
    simp only [List.foldl_cons]
    by_cases hv : kv.2 ≠ ""
    · rw [if_pos hv]
      have hq : (q.any (fun kv2 => kv2.1 = kv.1)) = false := by
        apply List.any_eq_false.mpr
        intro kv2 h2
        simp only [decide_eq_true_eq]
        intro heq
        exact (hdisj kv (List.mem_cons_self _ _) kv2 h2) heq.symm
      have hset : setParam q kv.1 kv.2 = q ++ (kv.1, kv.2) :: [] := by
        simp [setParam, hq]
      rw [hset]
      have hdisj2 : ∀ kv3 ∈ rest, ∀ kv2 ∈ q ++ (kv.1, kv.2) :: [], kv3.1 ≠ kv2.1 := by
        intro kv3 h3 kv2 h2
        rcases List.mem_append.mp h2 with h2q | h2s
        · exact hdisj kv3 (List.mem_cons_of_mem _ h3) kv2 h2q
        · have hkv2 : kv2 = (kv.1, kv.2) := by simpa using h2s
          rw [hkv2]
          intro heq
          exact hkv (heq ▸ List.mem_map_of_mem Prod.fst h3)
      rw [ih (q ++ (kv.1, kv.2) :: []) hdisj2 hndr]
      simp [List.filter_cons, hv]
    · rw [if_neg hv]
      have hdisj2 : ∀ kv3 ∈ rest, ∀ kv2 ∈ q, kv3.1 ≠ kv2.1 :=
        fun kv3 h3 => hdisj kv3 (List.mem_cons_of_mem _ h3)
      rw [ih q hdisj2 hndr]
      simp [List.filter_cons, hv]

/-- C6: for a Params mapping (whose keys, coming from a Go map, are
distinct), the outgoing query holds exactly the pairs with a non-empty
value, every empty-valued key being omitted entirely; in particular the
mapping foo to the empty string and bar to baz yields exactly bar equals
baz. -/
theorem query_omits_empty :
    ∀ m : List (String × String), (m.map Prod.fst).Nodup →
      (∀ k v : String, ((k, v) ∈ buildQuery m) ↔ ((k, v) ∈ m ∧ v ≠ "")) ∧
      (∀ (debug : Bool) (body : Option Json) (resp : RespVal) (t : TransportOutcome),
        (rawRequest debug (ParamsVal.ptrTo m) body resp t).query = buildQuery m) ∧
      buildQuery (("foo", "") :: ("bar", "baz") :: []) = ("bar", "baz") :: [] := by
  intro m hnd
  have hbq : buildQuery m = m.filter (fun kv => kv.2 ≠ "") := by
    have h := buildQuery_go m [] (by simp) hnd
    simpa [buildQuery] using h
  refine ⟨?_, ?_, by decide⟩
  · intro k v
    rw [hbq]
    simp [List.mem_filter]
  · intro debug body resp t
    exact rawRequest_query_ptr debug body resp t m

/-- Witness for query_omits_empty at the mapping of the claim. -/
theorem query_omits_empty_witness :
    (("bar", "baz") ∈ buildQuery (("foo", "") :: ("bar", "baz") :: [])) ∧
    ¬ (("foo", "") ∈ buildQuery (("foo", "") :: ("bar", "baz") :: [])) := by
  have h := query_omits_empty (("foo", "") :: ("bar", "baz") :: []) (by decide)
  constructor
  · exact (h.1 ("bar") ("baz")).2 ⟨by decide, by decide⟩
  · intro hm
    exact absurd ((h.1 ("foo") ("")).1 hm).2 (by decide)

/-- C8: the Debug flag never alters the returned value: for every params,
body, destination and transport behavior, rawRequest and Request yield the
same outcome, destination contents and query with Debug true as with Debug
false; only the log differs. -/
theorem debug_is_side_channel :
    ∀ (params : ParamsVal) (body : Option Json) (resp : RespVal)
      (t : TransportOutcome) (transports : Nat → TransportOutcome),
      ((rawRequest true params body resp t).outcome
          = (rawRequest false params body resp t).outcome ∧
        (rawRequest true params body resp t).dest
          = (rawRequest false params body resp t).dest ∧
        (rawRequest true params body resp t).query
          = (rawRequest false params body resp t).query) ∧
      Request true params body resp transports
        = Request false params body resp transports := by
  intro params body resp t transports
  refine ⟨rawRequest_debug_irrelevant params body resp t, ?_⟩
  simp only [Request]
  exact retryList_congr _ _
    (fun d t2 => ⟨(rawRequest_debug_irrelevant params body d t2).1,
      (rawRequest_debug_irrelevant params body d t2).2.1⟩) _ resp

/-- C9: the nil-capability checks are not total: a params value of a
non-nilable kind makes the check at api.go line 106 panic, and on a 2xx
response a destination value of a non-nilable kind makes the check at line
143 panic, instead of an error being returned. -/
theorem nil_check_panics :
    (rawRequest false (ParamsVal.structVal (("a", "b") :: [])) none RespVal.nilIface
        (TransportOutcome.netFail 0)).outcome = Outcome.panicked ∧
    (rawRequest false ParamsVal.nilIface none (RespVal.structVal Json.null)
        (TransportOutcome.resp ⟨200, ReadOutcome.bytes (RawBody.json (Json.num 1))⟩)).outcome
      = Outcome.panicked :=
  ⟨rfl, rfl⟩

/-- C10: a non-2xx response with an empty body yields the json.Unmarshal
failure on empty input, never a structured APIError and never a nil error,
so a bodyless error response is indistinguishable from a malformed error
payload. -/
theorem non2xx_empty_body :
    ∀ (debug : Bool) (params : ParamsVal) (body : Option Json) (resp : RespVal)
      (st : Nat),
      paramsGuard params ≠ GuardRes.panicked → ¬ (200 ≤ st ∧ st < 300) →
      (rawRequest debug params body resp
          (TransportOutcome.resp ⟨st, ReadOutcome.bytes RawBody.empty⟩)).outcome
        = Outcome.failed (ReqError.decodeErr DecodeError.syntaxErr) ∧
      (∀ a : APIError, (rawRequest debug params body resp
          (TransportOutcome.resp ⟨st, ReadOutcome.bytes RawBody.empty⟩)).outcome
        ≠ Outcome.failed (ReqError.apiErr a)) ∧
      (rawRequest debug params body resp
          (TransportOutcome.resp ⟨st, ReadOutcome.bytes RawBody.empty⟩)).outcome
        ≠ Outcome.ok := by
  intro debug params body resp st hp hst
  have h1 : (rawRequest debug params body resp
      (TransportOutcome.resp ⟨st, ReadOutcome.bytes RawBody.empty⟩)).outcome
        = Outcome.failed (ReqError.decodeErr DecodeError.syntaxErr) := by
    cases params with
    | structVal m => exact absurd rfl hp
    | nilIface => simp only [rawRequest]; rw [if_neg hst]; rfl
    | typedNil => simp only [rawRequest]; rw [if_neg hst]; rfl
    | ptrTo m => simp only [rawRequest]; rw [if_neg hst]; rfl
  refine ⟨h1, ?_, ?_⟩
  · intro a h
    rw [h1] at h
    simp at h
  · intro h
    rw [h1] at h
    simp at h

/-- Witness for non2xx_empty_body at a bare 404. -/
theorem non2xx_empty_body_witness :
    (rawRequest false ParamsVal.nilIface none RespVal.nilIface
        (TransportOutcome.resp ⟨404, ReadOutcome.bytes RawBody.empty⟩)).outcome
      = Outcome.failed (ReqError.decodeErr DecodeError.syntaxErr) ∧
    (∀ a : APIError, (rawRequest false ParamsVal.nilIface none RespVal.nilIface
        (TransportOutcome.resp ⟨404, ReadOutcome.bytes RawBody.empty⟩)).outcome
      ≠ Outcome.failed (ReqError.apiErr a)) ∧
    (rawRequest false ParamsVal.nilIface none RespVal.nilIface
        (TransportOutcome.resp ⟨404, ReadOutcome.bytes RawBody.empty⟩)).outcome
      ≠ Outcome.ok :=
  non2xx_empty_body false ParamsVal.nilIface none RespVal.nilIface 404
    (by decide) (by decide)

end Gochimp3
